import Mathlib

/-!
Shallow embedding of the Teacher/Course resource service (`main.py`,
`models/course.py`, `models/teacher.py`).

Modelling conventions:
* `UUID` and `datetime` values are opaque to the engine; they are modelled
  as `Nat`.  Teacher-id generation (`uuid4`) and timestamp stamping
  (`datetime.utcnow`) are modelled as explicit parameters (`freshId`, `now`).
* The Python `dict` stores (`courses`, `teachers` in `main.py`) are modelled
  as insertion-ordered association lists; `setKey` mirrors `d[k] = v`
  (replace in place when the key exists, append otherwise) and `listing`
  mirrors `list(d.values())`.
* `model_dump()` of a read model is `RawCourse` / `RawTeacher`: every field
  present, with required-field slots `Option`-typed because a merged dict can
  hold an explicit `null` where the read model demands a value.
* Pydantic construction `CourseRead(**stored)` / `TeacherRead(**stored)` is
  `courseReadOfRaw` / `teacherReadOfRaw`: it re-validates the pattern and
  range constraints declared on the models and fails (returns `none`,
  i.e. pydantic `ValidationError`) when a required field is missing/null or
  a constraint is violated.  The `EmailStr` shape check lives in an external
  library, not in this repository; it is modelled as the presence check only
  (no claim depends on the email grammar).
* Handlers that can raise `HTTPException` return `Except ApiError _`; an
  `error` result leaves the caller's store untouched, exactly as the Python
  handlers mutate the dict only after validation succeeded.
-/

/-! ### Field validators (regex / range constraints from the models) -/

/-- Uppercase ASCII letter, as in the pattern `[A-Z]`. -/
def isUpperAZ (c : Char) : Bool := decide ('A' ≤ c) && decide (c ≤ 'Z')

/-- Lowercase ASCII letter, as in the pattern `[a-z]`. -/
def isLowerAZ (c : Char) : Bool := decide ('a' ≤ c) && decide (c ≤ 'z')

/-- ASCII digit, as in the pattern `\d`. -/
def isDigit09 (c : Char) : Bool := decide ('0' ≤ c) && decide (c ≤ '9')

/-- Course code pattern from `models/course.py`: `^[A-Z]{4}\d{4}$`. -/
def isCourseCode (s : String) : Bool :=
  match s.toList with
  | [a, b, c, d, e, f, g, h] =>
    isUpperAZ a && isUpperAZ b && isUpperAZ c && isUpperAZ d &&
    isDigit09 e && isDigit09 f && isDigit09 g && isDigit09 h
  | _ => false

/-- Columbia UNI pattern from `models/teacher.py`: `^[a-z]{2,3}\d{1,4}$`. -/
def isUni (s : String) : Bool :=
  let cs := s.toList
  let letters := cs.takeWhile isLowerAZ
  let rest := cs.dropWhile isLowerAZ
  decide (2 ≤ letters.length) && decide (letters.length ≤ 3) &&
  decide (1 ≤ rest.length) && decide (rest.length ≤ 4) && rest.all isDigit09

/-- Range constraint `ge=1, le=5` on `credits`. -/
def creditsOk (k : Int) : Bool := decide (1 ≤ k) && decide (k ≤ 5)

/-! ### Data model (`models/course.py`, `models/teacher.py`) -/

/-- `CourseBase` from `models/course.py`: note that it carries an `id` field
(`default_factory=uuid4`) in the source, in addition to the user fields. -/
structure CourseBase where
  id : Nat
  code : String
  title : String
  credits : Int
  location : Option String
deriving DecidableEq, Repr

/-- `CourseCreate` subclasses `CourseBase` adding no fields. -/
abbrev CourseCreate := CourseBase

/-- `CourseRead` from `models/course.py`: `CourseBase` plus the two
timestamps. -/
structure CourseRead where
  id : Nat
  code : String
  title : String
  credits : Int
  location : Option String
  created_at : Nat
  updated_at : Nat
deriving DecidableEq, Repr

/-- Validity of one `CourseBase` value under its declared constraints
(`code` pattern, `credits` range); pydantic re-checks these whenever a
`CourseBase` is (re)constructed, e.g. for embedded course entries. -/
def courseBaseValid (c : CourseBase) : Bool :=
  isCourseCode c.code && creditsOk c.credits

/-- Projection dropping the two timestamps: `CourseRead` is exactly
`CourseBase` plus `created_at`/`updated_at`. -/
def CourseRead.toBase (r : CourseRead) : CourseBase :=
  ⟨r.id, r.code, r.title, r.credits, r.location⟩

/-- Re-attach timestamps to a `CourseBase`. -/
def CourseBase.toRead (b : CourseBase) (ca ua : Nat) : CourseRead :=
  ⟨b.id, b.code, b.title, b.credits, b.location, ca, ua⟩

/-- `CourseUpdate` from `models/course.py`.  Every field is `Optional` with
default `None`; the outer `Option` is pydantic's set/unset marker
(`exclude_unset`), the inner one the value (which may itself be `null`).
Note the source declares `code : Optional[str]` with **no** pattern. -/
structure CourseUpdate where
  code : Option (Option String)
  title : Option (Option String)
  credits : Option (Option Int)
  location : Option (Option String)
deriving DecidableEq, Repr

/-- `TeacherCreate` (= `TeacherBase`, which adds no fields) from
`models/teacher.py`; it has no `id`, `created_at` or `updated_at` field. -/
structure TeacherCreate where
  uni : String
  first_name : String
  last_name : String
  department : String
  email : String
  academic_title : Option String
  office : Option String
  courses : List CourseBase
deriving DecidableEq, Repr

/-- `TeacherRead` from `models/teacher.py`: the base fields plus the
server-generated `id` and the timestamps. -/
structure TeacherRead where
  id : Nat
  uni : String
  first_name : String
  last_name : String
  department : String
  email : String
  academic_title : Option String
  office : Option String
  courses : List CourseBase
  created_at : Nat
  updated_at : Nat
deriving DecidableEq, Repr

/-- `TeacherUpdate` from `models/teacher.py`: all fields optional, outer
`Option` = set/unset, inner = the supplied value (possibly `null`). -/
structure TeacherUpdate where
  uni : Option (Option String)
  first_name : Option (Option String)
  last_name : Option (Option String)
  department : Option (Option String)
  email : Option (Option String)
  academic_title : Option (Option String)
  office : Option (Option String)
  courses : Option (Option (List CourseBase))
deriving DecidableEq, Repr

/-! ### model_dump / merge / reconstruction -/

/-- Shape of `CourseRead.model_dump()` after a dict-merge: required fields
may have been overwritten by an explicit `null` from the payload, hence the
`Option` slots. -/
structure RawCourse where
  id : Nat
  code : Option String
  title : Option String
  credits : Option Int
  location : Option String
  created_at : Nat
  updated_at : Nat
deriving DecidableEq, Repr

/-- `model_dump()` of a stored `CourseRead` (main.py line 77). -/
def CourseRead.model_dump (c : CourseRead) : RawCourse :=
  ⟨c.id, some c.code, some c.title, some c.credits, c.location,
   c.created_at, c.updated_at⟩

/-- The dict merge `stored.update(update.model_dump(exclude_unset=True))`
(main.py line 78): a field supplied in the payload overwrites the stored
slot, an unset field leaves it. `CourseUpdate` has no `id`/timestamp
fields, so those slots cannot be touched. -/
def mergeCourse (stored : RawCourse) (u : CourseUpdate) : RawCourse :=
  { stored with
    code := u.code.getD stored.code
    title := u.title.getD stored.title
    credits := u.credits.getD stored.credits
    location := u.location.getD stored.location }

/-- Pydantic construction `CourseRead(**stored)` (main.py line 79):
required fields must be present and non-null, and the declared constraints
(`code` pattern, `credits` range) are re-validated; `none` models a raised
`ValidationError`. -/
def courseReadOfRaw (r : RawCourse) : Option CourseRead :=
  match r.code, r.title, r.credits with
  | some code, some title, some k =>
    if isCourseCode code && creditsOk k then
      some ⟨r.id, code, title, k, r.location, r.created_at, r.updated_at⟩
    else none
  | _, _, _ => none

/-- Shape of `TeacherRead.model_dump()` after a dict-merge. -/
structure RawTeacher where
  id : Nat
  uni : Option String
  first_name : Option String
  last_name : Option String
  department : Option String
  email : Option String
  academic_title : Option String
  office : Option String
  courses : Option (List CourseBase)
  created_at : Nat
  updated_at : Nat
deriving DecidableEq, Repr

/-- `model_dump()` of a stored `TeacherRead` (main.py line 146). -/
def TeacherRead.model_dump (t : TeacherRead) : RawTeacher :=
  ⟨t.id, some t.uni, some t.first_name, some t.last_name, some t.department,
   some t.email, t.academic_title, t.office, some t.courses,
   t.created_at, t.updated_at⟩

/-- The dict merge `stored.update(update.model_dump(exclude_unset=True))`
(main.py line 147); the whole `courses` slot is overwritten when supplied. -/
def mergeTeacher (stored : RawTeacher) (u : TeacherUpdate) : RawTeacher :=
  { stored with
    uni := u.uni.getD stored.uni
    first_name := u.first_name.getD stored.first_name
    last_name := u.last_name.getD stored.last_name
    department := u.department.getD stored.department
    email := u.email.getD stored.email
    academic_title := u.academic_title.getD stored.academic_title
    office := u.office.getD stored.office
    courses := u.courses.getD stored.courses }

/-- Pydantic construction `TeacherRead(**stored)` (main.py line 148):
required fields present and non-null, `uni` re-checked against its pattern,
every embedded course re-validated against the `CourseBase` constraints.
(The `EmailStr` grammar is an external library; modelled as presence.) -/
def teacherReadOfRaw (r : RawTeacher) : Option TeacherRead :=
  match r.uni, r.first_name, r.last_name, r.department, r.email, r.courses with
  | some uni, some fn, some ln, some dep, some em, some cs =>
    if isUni uni && cs.all courseBaseValid then
      some ⟨r.id, uni, fn, ln, dep, em, r.academic_title, r.office, cs,
            r.created_at, r.updated_at⟩
    else none
  | _, _, _, _, _, _ => none

/-! ### The stores (`courses`, `teachers` dicts in `main.py`) -/

abbrev CourseStore := List (Nat × CourseRead)
abbrev TeacherStore := List (Nat × TeacherRead)

/-- Dict lookup `d[k]` / `k in d`. -/
def lookup {α : Type} : List (Nat × α) → Nat → Option α
  | [], _ => none
  | (k, v) :: rest, key => if k = key then some v else lookup rest key

/-- Dict assignment `d[k] = v`: replace in place when the key exists
(preserving its position, as a Python dict does), append otherwise. -/
def setKey {α : Type} : List (Nat × α) → Nat → α → List (Nat × α)
  | [], key, v => [(key, v)]
  | (k, w) :: rest, key, v =>
    if k = key then (key, v) :: rest else (k, w) :: setKey rest key v

/-- `list(d.values())`: the listing in insertion order. -/
def listing {α : Type} (s : List (Nat × α)) : List α := s.map Prod.snd

/-! ### Errors -/

/-- Outcomes the handlers report via `HTTPException` / pydantic errors:
404  →  `notFound`, duplicate-id 400  →  `conflict`, pydantic
`ValidationError` on reconstruction  →  `validationError`. -/
inductive ApiError where
  | notFound
  | conflict
  | validationError
deriving DecidableEq, Repr

/-! ### Course endpoints (`main.py`) -/

/-- `create_course` (main.py lines 40-45): reject a duplicate id, else store
`CourseRead(**course.model_dump())` with both timestamps stamped `now`.
(A parsed `CourseCreate` already satisfies the `CourseBase` constraints, so
the re-validation performed by the constructor succeeds.) -/
def create_course (s : CourseStore) (course : CourseCreate) (now : Nat) :
    Except ApiError (CourseStore × CourseRead) :=
  if (lookup s course.id).isSome then
    .error .conflict
  else
    let r : CourseRead :=
      ⟨course.id, course.code, course.title, course.credits, course.location,
       now, now⟩
    .ok (setKey s course.id r, r)

/-- One step `if x is not None: results = [a for a in results if p(a)]`. -/
def optFilter {α β : Type} (o : Option β) (f : β → α → Bool) (l : List α) :
    List α :=
  match o with
  | none => l
  | some v => l.filter (f v)

/-- The predicate an `optFilter` step imposes: vacuous when the criterion is
absent, the equality check when present. -/
def optCheck {α β : Type} (o : Option β) (f : β → α → Bool) (a : α) : Bool :=
  match o with
  | none => true
  | some v => f v a

/-- Query parameters of `GET /courses` (main.py lines 48-52). -/
structure CourseQuery where
  code : Option String
  title : Option String
  credits : Option Int
  location : Option String
deriving DecidableEq, Repr

def codeEq (v : String) (a : CourseRead) : Bool := a.code == v
def titleEq (v : String) (a : CourseRead) : Bool := a.title == v
def creditsEq (v : Int) (a : CourseRead) : Bool := a.credits == v
/-- The Python comparison `a.location == location` between an
`Optional[str]` field and a supplied string. -/
def locationEq (v : String) (a : CourseRead) : Bool := a.location == some v

/-- `list_courses` (main.py lines 47-65): the full listing, narrowed by one
conditional filter per supplied criterion, in source order. -/
def list_courses (s : CourseStore) (q : CourseQuery) : List CourseRead :=
  optFilter q.location locationEq
    (optFilter q.credits creditsEq
      (optFilter q.title titleEq
        (optFilter q.code codeEq (listing s))))

/-- Conjunction of all present criteria of a Course query (conjunct order
is immaterial; it is written so that it literally collapses the filter
chain). -/
def matchesCourseQuery (q : CourseQuery) (a : CourseRead) : Bool :=
  optCheck q.location locationEq a && optCheck q.credits creditsEq a &&
  optCheck q.title titleEq a && optCheck q.code codeEq a

def emptyCourseQuery : CourseQuery := ⟨none, none, none, none⟩

/-- `update_course` (main.py lines 73-80): 404 when absent, else dump,
dict-merge, reconstruct (re-validating), and only then commit to the store. -/
def update_course (s : CourseStore) (course_id : Nat) (update : CourseUpdate) :
    Except ApiError (CourseStore × CourseRead) :=
  match lookup s course_id with
  | none => .error .notFound
  | some cur =>
    match courseReadOfRaw (mergeCourse cur.model_dump update) with
    | none => .error .validationError
    | some newc => .ok (setKey s course_id newc, newc)

/-! ### Teacher endpoints (`main.py`) -/

/-- `create_teacher` (main.py lines 92-96): no duplicate check at all; the
id is the server-generated `freshId` (pydantic `default_factory=uuid4`),
never taken from the payload (which has no id field), and the entity is
stored under that id. -/
def create_teacher (s : TeacherStore) (teacher : TeacherCreate)
    (freshId now : Nat) : TeacherStore × TeacherRead :=
  let t : TeacherRead :=
    ⟨freshId, teacher.uni, teacher.first_name, teacher.last_name,
     teacher.department, teacher.email, teacher.academic_title,
     teacher.office, teacher.courses, now, now⟩
  (setKey s freshId t, t)

/-- Query parameters of `GET /teachers` (main.py lines 99-110). -/
structure TeacherQuery where
  uni : Option String
  first_name : Option String
  last_name : Option String
  department : Option String
  email : Option String
  academic_title : Option String
  office : Option String
  location : Option String
  credits : Option Int
deriving DecidableEq, Repr

def uniEq (v : String) (t : TeacherRead) : Bool := t.uni == v
def firstNameEq (v : String) (t : TeacherRead) : Bool := t.first_name == v
def lastNameEq (v : String) (t : TeacherRead) : Bool := t.last_name == v
def departmentEq (v : String) (t : TeacherRead) : Bool := t.department == v
def emailEq (v : String) (t : TeacherRead) : Bool := t.email == v
def academicTitleEq (v : String) (t : TeacherRead) : Bool :=
  t.academic_title == some v
def officeEq (v : String) (t : TeacherRead) : Bool := t.office == some v

/-- Nested-existence check on `location` (main.py line 130):
`any((c.location or "") == location for c in t.courses)` — note the
`or ""` coercing an unassigned location to the empty string. -/
def nestedLocation (v : String) (t : TeacherRead) : Bool :=
  t.courses.any (fun c => (c.location.getD "") == v)

/-- Nested-existence check on `credits` (main.py line 132). -/
def nestedCredits (v : Int) (t : TeacherRead) : Bool :=
  t.courses.any (fun c => c.credits == v)

/-- `list_teachers` (main.py lines 98-134): one conditional filter per
supplied criterion, applied in source order (direct fields first, then the
two nested-existence criteria). -/
def list_teachers (s : TeacherStore) (q : TeacherQuery) : List TeacherRead :=
  optFilter q.credits nestedCredits
    (optFilter q.location nestedLocation
      (optFilter q.office officeEq
        (optFilter q.academic_title academicTitleEq
          (optFilter q.email emailEq
            (optFilter q.department departmentEq
              (optFilter q.last_name lastNameEq
                (optFilter q.first_name firstNameEq
                  (optFilter q.uni uniEq (listing s)))))))))

/-- Conjunction of all present criteria of a Teacher query (conjunct order
is immaterial; it is written so that it literally collapses the filter
chain). -/
def matchesTeacherQuery (q : TeacherQuery) (t : TeacherRead) : Bool :=
  optCheck q.credits nestedCredits t && optCheck q.location nestedLocation t &&
  optCheck q.office officeEq t && optCheck q.academic_title academicTitleEq t &&
  optCheck q.email emailEq t && optCheck q.department departmentEq t &&
  optCheck q.last_name lastNameEq t && optCheck q.first_name firstNameEq t &&
  optCheck q.uni uniEq t

def emptyTeacherQuery : TeacherQuery :=
  ⟨none, none, none, none, none, none, none, none, none⟩

/-- Teacher query supplying only the nested `location` criterion. -/
def locationOnlyQuery (v : String) : TeacherQuery :=
  ⟨none, none, none, none, none, none, none, some v, none⟩

/-- Teacher query supplying only the nested `credits` criterion. -/
def creditsOnlyQuery (k : Int) : TeacherQuery :=
  ⟨none, none, none, none, none, none, none, none, some k⟩

/-- Course query supplying only the `location` criterion. -/
def locationOnlyCourseQuery (v : String) : CourseQuery :=
  ⟨none, none, none, some v⟩

/-- `update_teacher` (main.py lines 142-149): 404 when absent, else dump,
dict-merge, reconstruct (re-validating), and only then commit. -/
def update_teacher (s : TeacherStore) (teacher_id : Nat)
    (update : TeacherUpdate) : Except ApiError (TeacherStore × TeacherRead) :=
  match lookup s teacher_id with
  | none => .error .notFound
  | some cur =>
    match teacherReadOfRaw (mergeTeacher cur.model_dump update) with
    | none => .error .validationError
    | some newt => .ok (setKey s teacher_id newt, newt)

/-- A supplied `code` value that violates the write contract: either an
explicit `null` or a string failing the course-code pattern. -/
def codeValueValid : Option String → Bool
  | none => false
  | some s => isCourseCode s

/-! ### Concrete sample data (used by witnesses and counterexamples) -/

def c0 : CourseRead :=
  ⟨1, "COMS4701", "Artificial Intelligence", 3, some "501 Northwest Corner",
   10, 10⟩

def demoCourseStore : CourseStore := [(1, c0)]

/-- Update supplying only `location`. -/
def locUpdate : CourseUpdate := ⟨none, none, none, some (some "417 IAB")⟩

/-- Expected result of applying `locUpdate` to `c0`. -/
def c0u : CourseRead :=
  ⟨1, "COMS4701", "Artificial Intelligence", 3, some "417 IAB", 10, 10⟩

def demoCourseStore1 : CourseStore := [(1, c0u)]

/-- Update supplying a `code` that violates the course-code pattern. -/
def badCodeUpdate : CourseUpdate := ⟨some (some "bad!"), none, none, none⟩

/-- Update supplying `title` explicitly set to null. -/
def nullTitleUpdate : CourseUpdate := ⟨none, some none, none, none⟩

/-- Creation payload reusing the already-stored id 1. -/
def cDup : CourseCreate := ⟨1, "COMS4112", "Databases II", 3, none⟩

/-- An embedded course value with an unassigned (`None`) location. -/
def cbDemo : CourseBase := ⟨2, "COMS4111", "Databases", 3, none⟩

def t0 : TeacherRead :=
  ⟨7, "dff9", "Donald", "Ferguson", "COMS", "dff9@columbia.edu",
   some "Professor", none, [cbDemo], 5, 5⟩

def demoTeacherStore : TeacherStore := [(7, t0)]

/-- Teacher update supplying `courses` as the empty list. -/
def emptyCoursesUpdate : TeacherUpdate :=
  ⟨none, none, none, none, none, none, none, some (some [])⟩

/-- Expected result of applying `emptyCoursesUpdate` to `t0`. -/
def t0u : TeacherRead :=
  ⟨7, "dff9", "Donald", "Ferguson", "COMS", "dff9@columbia.edu",
   some "Professor", none, [], 5, 5⟩

def demoTeacherStore1 : TeacherStore := [(7, t0u)]

/-- A teacher whose embedded course list is empty. -/
def tEmptyCourses : TeacherRead :=
  ⟨8, "ab1", "Alice", "Baker", "HUMA", "ab1@columbia.edu", none, none, [],
   0, 0⟩

/-- A teacher-creation payload whose embedded course carries id 42. -/
def tcDemo : TeacherCreate :=
  ⟨"hi1234", "Hugh", "Ingrid", "COMS", "hi1234@columbia.edu",
   some "Teaching Assistant", none,
   [⟨42, "COMS4701", "Cloud Computing", 3, some "501 Northwest Corner"⟩]⟩

/-- A stored course with unassigned location. -/
def cNoLocRead : CourseRead :=
  ⟨9, "COMS4701", "Artificial Intelligence", 3, none, 0, 0⟩

/-! ### Store and merge lemmas -/

theorem getD_idem {α : Type} (o : Option α) (x : α) :
    o.getD (o.getD x) = o.getD x := by
  cases o <;> rfl

theorem lookup_setKey_self {α : Type} (s : List (Nat × α)) (k : Nat) (v : α) :
    lookup (setKey s k v) k = some v := by
  induction s with
  | nil => simp [setKey, lookup]
  | cons hd tl ih =>
    obtain ⟨k1, w⟩ := hd
    by_cases h : k1 = k
    · subst h; simp [setKey, lookup]
    · simp [setKey, lookup, h, ih]

theorem setKey_eq_of_lookup {α : Type} (s : List (Nat × α)) (k : Nat) (v : α)
    (h : lookup s k = some v) : setKey s k v = s := by
  induction s with
  | nil => simp [lookup] at h
  | cons hd tl ih =>
    obtain ⟨k1, w⟩ := hd
    by_cases hk : k1 = k
    · subst hk
      simp [lookup] at h
      simp [setKey, h]
    · simp [lookup, hk] at h
      simp [setKey, hk, ih h]

theorem mergeCourse_idem (r : RawCourse) (u : CourseUpdate) :
    mergeCourse (mergeCourse r u) u = mergeCourse r u := by
  simp [mergeCourse, getD_idem]

theorem mergeTeacher_idem (r : RawTeacher) (u : TeacherUpdate) :
    mergeTeacher (mergeTeacher r u) u = mergeTeacher r u := by
  simp [mergeTeacher, getD_idem]

theorem courseReadOfRaw_dump {r : RawCourse} {c : CourseRead}
    (h : courseReadOfRaw r = some c) : c.model_dump = r := by
  obtain ⟨i, code?, title?, k?, loc, ca, ua⟩ := r
  cases code? <;> cases title? <;> cases k? <;>
    simp only [courseReadOfRaw, Option.ite_none_right_eq_some,
      Option.some.injEq, reduceCtorEq] at h
  obtain ⟨hv, ht⟩ := h
  subst ht
  rfl

theorem teacherReadOfRaw_dump {r : RawTeacher} {t : TeacherRead}
    (h : teacherReadOfRaw r = some t) : t.model_dump = r := by
  obtain ⟨i, u?, f?, l?, d?, e?, at?, of?, cs?, ca, ua⟩ := r
  cases u? <;> cases f? <;> cases l? <;> cases d? <;> cases e? <;> cases cs? <;>
    simp only [teacherReadOfRaw, Option.ite_none_right_eq_some,
      Option.some.injEq, reduceCtorEq] at h
  obtain ⟨hv, ht⟩ := h
  subst ht
  rfl

/-! ### Filter lemmas -/

theorem optFilter_eq {α β : Type} (o : Option β) (f : β → α → Bool)
    (l : List α) : optFilter o f l = l.filter (optCheck o f) := by
  cases o with
  | none => exact (List.filter_true l).symm
  | some v => rfl

theorem list_courses_eq_filter (s : CourseStore) (q : CourseQuery) :
    list_courses s q = (listing s).filter (matchesCourseQuery q) := by
  unfold list_courses
  rw [optFilter_eq, optFilter_eq, optFilter_eq, optFilter_eq,
    List.filter_filter, List.filter_filter, List.filter_filter]
  rfl

theorem list_teachers_eq_filter (s : TeacherStore) (q : TeacherQuery) :
    list_teachers s q = (listing s).filter (matchesTeacherQuery q) := by
  unfold list_teachers
  rw [optFilter_eq, optFilter_eq, optFilter_eq, optFilter_eq, optFilter_eq,
    optFilter_eq, optFilter_eq, optFilter_eq, optFilter_eq,
    List.filter_filter, List.filter_filter, List.filter_filter,
    List.filter_filter, List.filter_filter, List.filter_filter,
    List.filter_filter, List.filter_filter]
  rfl

/-! ### Inversion of the update handlers -/

theorem update_course_ok_spec {s : CourseStore} {cid : Nat}
    {u : CourseUpdate} {s1 : CourseStore} {c1 : CourseRead}
    (h : update_course s cid u = .ok (s1, c1)) :
    ∃ cur, lookup s cid = some cur ∧
      courseReadOfRaw (mergeCourse cur.model_dump u) = some c1 ∧
      s1 = setKey s cid c1 := by
  unfold update_course at h
  split at h
  · exact absurd h (by simp)
  next cur heq =>
    split at h
    · exact absurd h (by simp)
    next newc hv =>
      injection h with h1
      injection h1 with h2 h3
      subst h3
      exact ⟨cur, heq, hv, h2.symm⟩

theorem update_teacher_ok_spec {s : TeacherStore} {tid : Nat}
    {u : TeacherUpdate} {s1 : TeacherStore} {t1 : TeacherRead}
    (h : update_teacher s tid u = .ok (s1, t1)) :
    ∃ cur, lookup s tid = some cur ∧
      teacherReadOfRaw (mergeTeacher cur.model_dump u) = some t1 ∧
      s1 = setKey s tid t1 := by
  unfold update_teacher at h
  split at h
  · exact absurd h (by simp)
  next cur heq =>
    split at h
    · exact absurd h (by simp)
    next newt hv =>
      injection h with h1
      injection h1 with h2 h3
      subst h3
      exact ⟨cur, heq, hv, h2.symm⟩

/-- Reconstruction fails whenever the merged `code` slot is null or fails
the course-code pattern, whatever the other fields hold. -/
theorem courseReadOfRaw_badCode {r : RawCourse} {w : Option String}
    (hw : r.code = w) (hbad : codeValueValid w = false) :
    courseReadOfRaw r = none := by
  subst hw
  obtain ⟨i, code?, t?, k?, loc, ca, ua⟩ := r
  cases code? with
  | none => cases t? <;> cases k? <;> rfl
  | some str =>
    simp only [codeValueValid] at hbad
    cases t? <;> cases k? <;> simp [courseReadOfRaw, hbad]

/-! ### Claims -/

/-- Claim C3: a Course creation whose payload id is already a key fails
with `Conflict` (and, the handler raising before the assignment, the store
is untouched); a Teacher creation never consults the store for a conflict:
it is total, and the stored/returned id is the server-generated fresh id,
never a payload field (`TeacherCreate` carries no id). -/
theorem create_conflict_semantics :
    (∀ (s : CourseStore) (c : CourseCreate) (now : Nat),
        (lookup s c.id).isSome = true →
        create_course s c now = .error ApiError.conflict) ∧
    (∀ (s : TeacherStore) (p : TeacherCreate) (freshId now : Nat),
        ((create_teacher s p freshId now).2).id = freshId ∧
        (create_teacher s p freshId now).1 =
          setKey s freshId (create_teacher s p freshId now).2) := by
  constructor
  · intro s c now h
    simp [create_course, h]
  · intro s p fid now
    exact ⟨rfl, rfl⟩

/-- Witness for C3 at concrete inputs: id 1 is already stored, so creation
conflicts; a Teacher created with fresh id 7 is stored under id 7. -/
theorem create_conflict_semantics_witness :
    create_course demoCourseStore cDup 20 = .error ApiError.conflict ∧
    ((create_teacher [] tcDemo 7 0).2).id = 7 :=
  ⟨create_conflict_semantics.1 demoCourseStore cDup 20 (by rfl),
   (create_conflict_semantics.2 [] tcDemo 7 0).1⟩

/-- Claim C5: both List endpoints return exactly the sublist of the store's
listing (in listing order, since `filter` preserves order) whose members
satisfy the conjunction of all present criteria; an all-absent criteria set
returns the full listing, and an empty store yields `[]`, never an error. -/
theorem list_filter_conjunction :
    (∀ (s : CourseStore) (q : CourseQuery),
        list_courses s q = (listing s).filter (matchesCourseQuery q)) ∧
    (∀ (s : TeacherStore) (q : TeacherQuery),
        list_teachers s q = (listing s).filter (matchesTeacherQuery q)) ∧
    (∀ (s : CourseStore), list_courses s emptyCourseQuery = listing s) ∧
    (∀ (s : TeacherStore), list_teachers s emptyTeacherQuery = listing s) ∧
    (∀ (q : CourseQuery), list_courses [] q = []) ∧
    (∀ (q : TeacherQuery), list_teachers [] q = []) := by
  refine ⟨list_courses_eq_filter, list_teachers_eq_filter, ?_, ?_, ?_, ?_⟩
  · intro s
    rw [list_courses_eq_filter]
    exact List.filter_true _
  · intro s
    rw [list_teachers_eq_filter]
    exact List.filter_true _
  · intro q
    rw [list_courses_eq_filter]
    rfl
  · intro q
    rw [list_teachers_eq_filter]
    rfl

/-- Claim C9 (counterexample): the embedded course entries of a Teacher are
`CourseBase` values, and `CourseBase` does carry an `id` field in the
source — a Teacher created from a payload whose embedded course has id 42
stores that id, and two embedded entries can differ in `id` alone. -/
theorem embedded_course_no_id_cex :
    (create_teacher [] tcDemo 7 0).2.courses.map CourseBase.id = [42] ∧
    (⟨1, "COMS4701", "AI", 3, none⟩ : CourseBase) ≠
      (⟨2, "COMS4701", "AI", 3, none⟩ : CourseBase) :=
  ⟨rfl, by decide⟩

/-- Claim C9 (amended): an embedded course entry carries the same fields as
Course minus the two timestamps only — it does include an `id` field — and
Teacher creation embeds the payload's course values verbatim, touching no
independent Course store. -/
theorem embedded_course_shape :
    (∀ (b : CourseBase) (ca ua : Nat), (b.toRead ca ua).toBase = b) ∧
    (∀ (r : CourseRead), r.toBase.toRead r.created_at r.updated_at = r) ∧
    (∀ (s : TeacherStore) (p : TeacherCreate) (freshId now : Nat),
        ((create_teacher s p freshId now).2).courses = p.courses) :=
  ⟨fun _ _ _ => rfl, fun _ => rfl, fun _ _ _ _ => rfl⟩

/-- Claim C2: updating a stored Course with a payload whose `code` field is
supplied but violates the 4-uppercase-letters + 4-digits contract (or is an
explicit null) fails with `ValidationError`; the handler raises while
reconstructing `CourseRead(**stored)`, before the dict assignment, so the
stored Course is left completely unmodified (the error result carries no
new store). -/
theorem update_course_invalid_code_all_or_nothing
    (s : CourseStore) (cid : Nat) (u : CourseUpdate) (cur : CourseRead)
    (w : Option String) (hl : lookup s cid = some cur) (hc : u.code = some w)
    (hbad : codeValueValid w = false) :
    update_course s cid u = .error ApiError.validationError := by
  have hm : (mergeCourse cur.model_dump u).code = w := by
    simp [mergeCourse, CourseRead.model_dump, hc]
  have hn := courseReadOfRaw_badCode hm hbad
  simp [update_course, hl, hn]

/-- Witness for C2: supplying `code := "bad!"` to the stored course makes
the update fail with `ValidationError`. -/
theorem update_course_invalid_code_all_or_nothing_witness :
    update_course demoCourseStore 1 badCodeUpdate =
      .error ApiError.validationError :=
  update_course_invalid_code_all_or_nothing demoCourseStore 1 badCodeUpdate
    c0 (some "bad!") (by rfl) (by rfl) (by rfl)

/-- Claim C6 (counterexample): teacher `t0` has a single embedded course
whose `location` is unassigned (`none`); the nested-existence criterion
`location=""` is satisfied (the listing returns the teacher), yet no
embedded course has a `location` field value equal to `some ""` — refuting
the claimed "satisfied iff some embedded course's field value equals the
criterion value". -/
theorem nested_location_field_equality_cex :
    list_teachers [(7, t0)] (locationOnlyQuery "") = [t0] ∧
    (∀ c ∈ t0.courses, ¬ c.location = some "") :=
  ⟨rfl, by decide⟩

/-- Claim C6 (amended): a nested-existence criterion on `credits` is
satisfied iff some embedded course has exactly that credits value; the one
on `location` is satisfied iff some embedded course's location — with an
unassigned location read as the empty string — equals the criterion value;
a Teacher with an empty embedded course list never satisfies either. -/
theorem nested_existence_semantics :
    (∀ (s : TeacherStore) (v : String),
        list_teachers s (locationOnlyQuery v) =
          (listing s).filter (nestedLocation v)) ∧
    (∀ (s : TeacherStore) (k : Int),
        list_teachers s (creditsOnlyQuery k) =
          (listing s).filter (nestedCredits k)) ∧
    (∀ (t : TeacherRead) (v : String),
        nestedLocation v t = true ↔
          ∃ c ∈ t.courses, c.location.getD "" = v) ∧
    (∀ (t : TeacherRead) (k : Int),
        nestedCredits k t = true ↔ ∃ c ∈ t.courses, c.credits = k) ∧
    (∀ (t : TeacherRead) (v : String) (k : Int), t.courses = [] →
        nestedLocation v t = false ∧ nestedCredits k t = false) := by
  refine ⟨?_, ?_, ?_, ?_, ?_⟩
  · intro s v
    rw [list_teachers_eq_filter]
    exact List.filter_congr fun t _ => by
      simp [matchesTeacherQuery, optCheck, locationOnlyQuery]
  · intro s k
    rw [list_teachers_eq_filter]
    exact List.filter_congr fun t _ => by
      simp [matchesTeacherQuery, optCheck, creditsOnlyQuery]
  · intro t v
    simp [nestedLocation, List.any_eq_true]
  · intro t k
    simp [nestedCredits, List.any_eq_true]
  · intro t v k h
    constructor <;> simp [nestedLocation, nestedCredits, h]

/-- Witness for C6 (amended), empty-course-list part, at a concrete
teacher. -/
theorem nested_existence_semantics_witness :
    nestedLocation "501 Northwest Corner" tEmptyCourses = false ∧
    nestedCredits 3 tEmptyCourses = false :=
  nested_existence_semantics.2.2.2.2 tEmptyCourses "501 Northwest Corner" 3
    (by rfl)

/-- Claim C10: in the Teacher listing, an embedded course with unassigned
(`None`) location is treated as having the empty-string location — a
teacher owning such a course satisfies the nested criterion
`location=""` — whereas in the Course listing a stored Course with
unassigned location satisfies no location criterion whatsoever. -/
theorem nested_location_none_as_empty :
    (∀ (t : TeacherRead) (c : CourseBase), c ∈ t.courses →
        c.location = none →
        nestedLocation "" t = true ∧
        list_teachers [(t.id, t)] (locationOnlyQuery "") = [t]) ∧
    (∀ (c : CourseRead) (v : String), c.location = none →
        list_courses [(c.id, c)] (locationOnlyCourseQuery v) = []) := by
  constructor
  · intro t c hc hloc
    have h1 : nestedLocation "" t = true := by
      simp only [nestedLocation, List.any_eq_true]
      exact ⟨c, hc, by simp [hloc]⟩
    refine ⟨h1, ?_⟩
    rw [list_teachers_eq_filter]
    simp [listing, matchesTeacherQuery, optCheck, locationOnlyQuery, h1]
  · intro c v hloc
    rw [list_courses_eq_filter]
    simp [listing, matchesCourseQuery, optCheck, locationOnlyCourseQuery,
      locationEq, hloc]

/-- Witness for C10 at concrete inputs: `t0` owns a course with unassigned
location and satisfies `location=""`; the stored course `cNoLocRead` with
unassigned location matches no location criterion. -/
theorem nested_location_none_as_empty_witness :
    (nestedLocation "" t0 = true ∧
      list_teachers [(t0.id, t0)] (locationOnlyQuery "") = [t0]) ∧
    list_courses [(cNoLocRead.id, cNoLocRead)]
      (locationOnlyCourseQuery "501 Northwest Corner") = [] :=
  ⟨nested_location_none_as_empty.1 t0 cbDemo (by decide) (by rfl),
   nested_location_none_as_empty.2 cNoLocRead "501 Northwest Corner" (by rfl)⟩

/-- Claim C1 (counterexample): an update payload may be supplied yet make
the operation fail instead of storing — supplying `title` explicitly as
null is "present" in the payload, but reconstruction rejects a null
required field, so nothing is stored or returned. -/
theorem update_stores_every_payload_cex :
    update_course demoCourseStore 1 nullTitleUpdate =
      .error ApiError.validationError := rfl

/-- Claim C1 (amended): whenever an Update succeeds, the stored and
returned entity holds the payload's value at every field present in the
payload (presence = supplied, even when the supplied value is null) and
the stored value at every absent field, for Course and Teacher alike. -/
theorem update_merge_semantics :
    (∀ (s : CourseStore) (cid : Nat) (u : CourseUpdate) (s1 : CourseStore)
        (c1 cur : CourseRead),
        update_course s cid u = .ok (s1, c1) → lookup s cid = some cur →
        (∀ w, u.code = some w → some c1.code = w) ∧
        (u.code = none → c1.code = cur.code) ∧
        (∀ w, u.title = some w → some c1.title = w) ∧
        (u.title = none → c1.title = cur.title) ∧
        (∀ w, u.credits = some w → some c1.credits = w) ∧
        (u.credits = none → c1.credits = cur.credits) ∧
        (∀ w, u.location = some w → c1.location = w) ∧
        (u.location = none → c1.location = cur.location) ∧
        lookup s1 cid = some c1) ∧
    (∀ (s : TeacherStore) (tid : Nat) (u : TeacherUpdate) (s1 : TeacherStore)
        (t1 cur : TeacherRead),
        update_teacher s tid u = .ok (s1, t1) → lookup s tid = some cur →
        (∀ w, u.uni = some w → some t1.uni = w) ∧
        (u.uni = none → t1.uni = cur.uni) ∧
        (∀ w, u.first_name = some w → some t1.first_name = w) ∧
        (u.first_name = none → t1.first_name = cur.first_name) ∧
        (∀ w, u.last_name = some w → some t1.last_name = w) ∧
        (u.last_name = none → t1.last_name = cur.last_name) ∧
        (∀ w, u.department = some w → some t1.department = w) ∧
        (u.department = none → t1.department = cur.department) ∧
        (∀ w, u.email = some w → some t1.email = w) ∧
        (u.email = none → t1.email = cur.email) ∧
        (∀ w, u.academic_title = some w → t1.academic_title = w) ∧
        (u.academic_title = none → t1.academic_title = cur.academic_title) ∧
        (∀ w, u.office = some w → t1.office = w) ∧
        (u.office = none → t1.office = cur.office) ∧
        (∀ w, u.courses = some w → some t1.courses = w) ∧
        (u.courses = none → t1.courses = cur.courses) ∧
        lookup s1 tid = some t1) := by
  constructor
  · intro s cid u s1 c1 cur h hl
    obtain ⟨cur2, hl2, hv, hs⟩ := update_course_ok_spec h
    rw [hl] at hl2
    injection hl2 with e
    subst e
    have hd := courseReadOfRaw_dump hv
    simp only [CourseRead.model_dump, mergeCourse, RawCourse.mk.injEq] at hd
    obtain ⟨hid, hcode, htitle, hcred, hloc, hca, hua⟩ := hd
    refine ⟨?_, ?_, ?_, ?_, ?_, ?_, ?_, ?_, ?_⟩
    · intro w hw; rw [hw] at hcode; simpa using hcode
    · intro hw; rw [hw] at hcode; simpa using hcode
    · intro w hw; rw [hw] at htitle; simpa using htitle
    · intro hw; rw [hw] at htitle; simpa using htitle
    · intro w hw; rw [hw] at hcred; simpa using hcred
    · intro hw; rw [hw] at hcred; simpa using hcred
    · intro w hw; rw [hw] at hloc; simpa using hloc
    · intro hw; rw [hw] at hloc; simpa using hloc
    · rw [hs]; exact lookup_setKey_self s cid c1
  · intro s tid u s1 t1 cur h hl
    obtain ⟨cur2, hl2, hv, hs⟩ := update_teacher_ok_spec h
    rw [hl] at hl2
    injection hl2 with e
    subst e
    have hd := teacherReadOfRaw_dump hv
    simp only [TeacherRead.model_dump, mergeTeacher, RawTeacher.mk.injEq] at hd
    obtain ⟨hid, huni, hfn, hln, hdep, hem, hat, hof, hcs, hca, hua⟩ := hd
    refine ⟨?_, ?_, ?_, ?_, ?_, ?_, ?_, ?_, ?_, ?_, ?_, ?_, ?_, ?_, ?_, ?_, ?_⟩
    · intro w hw; rw [hw] at huni; simpa using huni
    · intro hw; rw [hw] at huni; simpa using huni
    · intro w hw; rw [hw] at hfn; simpa using hfn
    · intro hw; rw [hw] at hfn; simpa using hfn
    · intro w hw; rw [hw] at hln; simpa using hln
    · intro hw; rw [hw] at hln; simpa using hln
    · intro w hw; rw [hw] at hdep; simpa using hdep
    · intro hw; rw [hw] at hdep; simpa using hdep
    · intro w hw; rw [hw] at hem; simpa using hem
    · intro hw; rw [hw] at hem; simpa using hem
    · intro w hw; rw [hw] at hat; simpa using hat
    · intro hw; rw [hw] at hat; simpa using hat
    · intro w hw; rw [hw] at hof; simpa using hof
    · intro hw; rw [hw] at hof; simpa using hof
    · intro w hw; rw [hw] at hcs; simpa using hcs
    · intro hw; rw [hw] at hcs; simpa using hcs
    · rw [hs]; exact lookup_setKey_self s tid t1

/-- Witness for C1 (amended) at a concrete Course update: the supplied
`location` is taken, the absent `code` is kept, and the merged entity is
stored. -/
theorem update_merge_semantics_witness :
    c0u.location = some "417 IAB" ∧ c0u.code = c0.code ∧
    lookup demoCourseStore1 1 = some c0u := by
  have h := update_merge_semantics.1 demoCourseStore 1 locUpdate
    demoCourseStore1 c0u c0 (by rfl) (by rfl)
  exact ⟨h.2.2.2.2.2.2.1 (some "417 IAB") (by rfl), h.2.1 (by rfl),
    h.2.2.2.2.2.2.2.2⟩

/-- Claim C4: on a successful Teacher update, a supplied `courses` field
(including the empty list) replaces the whole embedded list with exactly
the payload's list — no element-wise merging — while an absent `courses`
field leaves the stored list intact verbatim. -/
theorem update_teacher_courses_wholesale :
    ∀ (s : TeacherStore) (tid : Nat) (u : TeacherUpdate) (s1 : TeacherStore)
      (t1 cur : TeacherRead),
      update_teacher s tid u = .ok (s1, t1) → lookup s tid = some cur →
      (∀ cs, u.courses = some (some cs) → t1.courses = cs) ∧
      (u.courses = none → t1.courses = cur.courses) ∧
      lookup s1 tid = some t1 := by
  intro s tid u s1 t1 cur h hl
  obtain ⟨cur2, hl2, hv, hs⟩ := update_teacher_ok_spec h
  rw [hl] at hl2
  injection hl2 with e
  subst e
  have hd := teacherReadOfRaw_dump hv
  simp only [TeacherRead.model_dump, mergeTeacher, RawTeacher.mk.injEq] at hd
  obtain ⟨-, -, -, -, -, -, -, -, hcs, -, -⟩ := hd
  refine ⟨?_, ?_, ?_⟩
  · intro cs hw; rw [hw] at hcs; simpa using hcs
  · intro hw; rw [hw] at hcs; simpa using hcs
  · rw [hs]; exact lookup_setKey_self s tid t1

/-- Witness for C4: supplying `courses := []` to the stored teacher (whose
list was nonempty) succeeds and stores the empty list. -/
theorem update_teacher_courses_wholesale_witness :
    update_teacher demoTeacherStore 7 emptyCoursesUpdate =
      .ok (demoTeacherStore1, t0u) ∧ t0u.courses = [] :=
  ⟨by rfl,
   (update_teacher_courses_wholesale demoTeacherStore 7 emptyCoursesUpdate
     demoTeacherStore1 t0u t0 (by rfl) (by rfl)).1 [] (by rfl)⟩

/-- Claim C7: a successful Update is idempotent — re-applying the very same
payload to the resulting store succeeds and changes neither the store nor
the returned entity, for Course and Teacher alike (including Teacher
updates that supply `courses`). -/
theorem update_idempotent :
    (∀ (s : CourseStore) (cid : Nat) (u : CourseUpdate) (s1 : CourseStore)
        (c1 : CourseRead),
        update_course s cid u = .ok (s1, c1) →
        update_course s1 cid u = .ok (s1, c1)) ∧
    (∀ (s : TeacherStore) (tid : Nat) (u : TeacherUpdate) (s1 : TeacherStore)
        (t1 : TeacherRead),
        update_teacher s tid u = .ok (s1, t1) →
        update_teacher s1 tid u = .ok (s1, t1)) := by
  constructor
  · intro s cid u s1 c1 h
    obtain ⟨cur, hl, hv, hs⟩ := update_course_ok_spec h
    have hd := courseReadOfRaw_dump hv
    have hl1 : lookup s1 cid = some c1 := by
      rw [hs]; exact lookup_setKey_self s cid c1
    have hmerge : mergeCourse c1.model_dump u = mergeCourse cur.model_dump u := by
      rw [hd]; exact mergeCourse_idem cur.model_dump u
    have hset : setKey s1 cid c1 = s1 := setKey_eq_of_lookup s1 cid c1 hl1
    simp [update_course, hl1, hmerge, hv, hset]
  · intro s tid u s1 t1 h
    obtain ⟨cur, hl, hv, hs⟩ := update_teacher_ok_spec h
    have hd := teacherReadOfRaw_dump hv
    have hl1 : lookup s1 tid = some t1 := by
      rw [hs]; exact lookup_setKey_self s tid t1
    have hmerge : mergeTeacher t1.model_dump u = mergeTeacher cur.model_dump u := by
      rw [hd]; exact mergeTeacher_idem cur.model_dump u
    have hset : setKey s1 tid t1 = s1 := setKey_eq_of_lookup s1 tid t1 hl1
    simp [update_teacher, hl1, hmerge, hv, hset]

/-- Witness for C7: re-applying the concrete `location` update to the
already-updated store returns the same store and entity. -/
theorem update_idempotent_witness :
    update_course demoCourseStore1 1 locUpdate = .ok (demoCourseStore1, c0u) :=
  update_idempotent.1 demoCourseStore 1 locUpdate demoCourseStore1 c0u (by rfl)

/-- Claim C8: a successful Update never changes `id`, `created_at` or
`updated_at` — the update models carry none of those fields, so the merge
copies them from the stored entity and reconstruction keeps them. -/
theorem update_preserves_id_timestamps :
    (∀ (s : CourseStore) (cid : Nat) (u : CourseUpdate) (s1 : CourseStore)
        (c1 cur : CourseRead),
        update_course s cid u = .ok (s1, c1) → lookup s cid = some cur →
        c1.id = cur.id ∧ c1.created_at = cur.created_at ∧
        c1.updated_at = cur.updated_at ∧ lookup s1 cid = some c1) ∧
    (∀ (s : TeacherStore) (tid : Nat) (u : TeacherUpdate) (s1 : TeacherStore)
        (t1 cur : TeacherRead),
        update_teacher s tid u = .ok (s1, t1) → lookup s tid = some cur →
        t1.id = cur.id ∧ t1.created_at = cur.created_at ∧
        t1.updated_at = cur.updated_at ∧ lookup s1 tid = some t1) := by
  constructor
  · intro s cid u s1 c1 cur h hl
    obtain ⟨cur2, hl2, hv, hs⟩ := update_course_ok_spec h
    rw [hl] at hl2
    injection hl2 with e
    subst e
    have hd := courseReadOfRaw_dump hv
    simp only [CourseRead.model_dump, mergeCourse, RawCourse.mk.injEq] at hd
    obtain ⟨hid, -, -, -, -, hca, hua⟩ := hd
    exact ⟨hid, hca, hua, by rw [hs]; exact lookup_setKey_self s cid c1⟩
  · intro s tid u s1 t1 cur h hl
    obtain ⟨cur2, hl2, hv, hs⟩ := update_teacher_ok_spec h
    rw [hl] at hl2
    injection hl2 with e
    subst e
    have hd := teacherReadOfRaw_dump hv
    simp only [TeacherRead.model_dump, mergeTeacher, RawTeacher.mk.injEq] at hd
    obtain ⟨hid, -, -, -, -, -, -, -, -, hca, hua⟩ := hd
    exact ⟨hid, hca, hua, by rw [hs]; exact lookup_setKey_self s tid t1⟩

/-- Witness for C8 at the concrete Course update. -/
theorem update_preserves_id_timestamps_witness :
    c0u.id = c0.id ∧ c0u.created_at = c0.created_at ∧
    c0u.updated_at = c0.updated_at ∧ lookup demoCourseStore1 1 = some c0u :=
  update_preserves_id_timestamps.1 demoCourseStore 1 locUpdate
    demoCourseStore1 c0u c0 (by rfl) (by rfl)
